import Mathlib

/-!
Verification of the incremental property-listing ingestion engine
(scraper package: `utils.py`, `classify.py`, `parsing.py`, `olx_scraper.py`,
`persist.py`) against its natural-language specification.

The Python code is shallowly embedded: SQLite tables become lists of rows,
`datetime` values become natural numbers (only equality and "which clock value
was stamped" matter to the properties below), Python `float` prices become
exact rationals (the properties below only compare, never round), and Python
strings become Lean strings.  Python's `str.lower`/`str.upper` are embedded
for the ASCII and Cyrillic ranges (the character classes the scraper's
Ukrainian keyword tables use); `re` regular expressions that amount to
substring or digit-token scans are embedded directly, and the two regex
families that do not (the classifier's phrase patterns and phone pattern) are
passed in as match counts, exactly the quantity the Python code derives from
them.
-/

/-! ## Character and string helpers (Python `str` operations) -/

/-- Python `str.lower` restricted to ASCII letters, the basic Cyrillic block
and Ukrainian ґ: the character data the scraper manipulates. -/
def pyLower (c : Char) : Char :=
  let n := c.toNat
  if 0x41 ≤ n && n ≤ 0x5a then Char.ofNat (n + 0x20)
  else if 0x410 ≤ n && n ≤ 0x42f then Char.ofNat (n + 0x20)
  else if 0x400 ≤ n && n ≤ 0x40f then Char.ofNat (n + 0x50)
  else if n = 0x490 then Char.ofNat 0x491
  else c

/-- Python `str.upper` on the same character ranges as `pyLower`. -/
def pyUpper (c : Char) : Char :=
  let n := c.toNat
  if 0x61 ≤ n && n ≤ 0x7a then Char.ofNat (n - 0x20)
  else if 0x430 ≤ n && n ≤ 0x44f then Char.ofNat (n - 0x20)
  else if 0x450 ≤ n && n ≤ 0x45f then Char.ofNat (n - 0x50)
  else if n = 0x491 then Char.ofNat 0x490
  else c

/-- Python `s.lower()` character by character. -/
def pyLowerStr (s : String) : String := ⟨s.toList.map pyLower⟩

/-- Whitespace as Python `str.strip` and `\s` treat it (ASCII whitespace). -/
def isPySpace (c : Char) : Bool :=
  c = ' ' || c = '\t' || c = '\n' || c = '\x0d' || c = '\x0b' || c = '\x0c'

/-- Whether `needle` occurs as a contiguous run inside `hay` (Python `in`). -/
def isSubL (needle : List Char) : List Char → Bool
  | [] => needle.isEmpty
  | c :: rest => needle.isPrefixOf (c :: rest) || isSubL needle rest

/-- Python `sub in s` on strings. -/
def strContains (hay needle : String) : Bool := isSubL needle.toList hay.toList

/-- Whether any of the strings in `pats` occurs in the character list `l`
(Python `any(p in text for p in pats)`). -/
def containsAnyL (l : List Char) (pats : List String) : Bool :=
  pats.any (fun p => isSubL p.toList l)

/-- Decimal digits, as matched by the scraper's `\d` tokens on its inputs. -/
def isDigitCh (c : Char) : Bool := '0' ≤ c && c ≤ '9'

/-- Numeric value of a run of decimal digits. -/
def digitsToNat (l : List Char) : Nat :=
  l.foldl (fun n c => 10 * n + (c.toNat - '0'.toNat)) 0

/-! ## `utils.py`: `extract_price` and `clean_text` -/

/-- Leftmost match of `\d+(?:\.\d+)?`: the integer-part digits and the
optional fractional digits (empty when the dot-and-digits tail is absent),
as `re.search` finds them in `extract_price`. -/
def findNumericToken : List Char → Option (List Char × List Char)
  | [] => none
  | c :: rest =>
    if isDigitCh c then
      let intPart := (c :: rest).takeWhile isDigitCh
      let after := (c :: rest).dropWhile isDigitCh
      match after with
      | '.' :: d :: tail =>
        if isDigitCh d then some (intPart, (d :: tail).takeWhile isDigitCh)
        else some (intPart, [])
      | _ => some (intPart, [])
    else findNumericToken rest

/-- Rational value of a matched numeric token, Python `float(group)` made
exact. -/
def tokenValue (intPart fracPart : List Char) : ℚ :=
  (digitsToNat intPart : ℚ) + (digitsToNat fracPart : ℚ) / (10 : ℚ) ^ fracPart.length

/-- Price text after `replace(',', '').replace(' ', '')`. -/
def priceCleanChars (s : String) : List Char :=
  s.toList.filter (fun c => !(c == ',') && !(c == ' '))

/-- Cleaned price text uppercased (Python `price_text.upper()`), where the
currency markers are looked for. -/
def priceUpperChars (s : String) : List Char := (priceCleanChars s).map pyUpper

/-- Embedding of `utils.extract_price` (utils.py lines 53-85): empty text
gives `(None, "")`; commas and spaces are removed; if no numeric token is
found the result is `(None, "")`; otherwise the currency is read off the
uppercased cleaned text, with `"USD"` as the fallthrough default. -/
def extract_price (price_text : String) : Option ℚ × String :=
  if price_text = "" then (none, "")
  else
    match findNumericToken (priceCleanChars price_text) with
    | none => (none, "")
    | some (intPart, fracPart) =>
      let v := tokenValue intPart fracPart
      let up := priceUpperChars price_text
      if containsAnyL up ["USD", "$", "DOLLAR"] then (some v, "USD")
      else if containsAnyL up ["EUR", "€", "EURO"] then (some v, "EUR")
      else if containsAnyL up ["UAH", "₴", "ГРН"] then (some v, "UAH")
      else (some v, "USD")

/-- Collapse each whitespace run to a single space (Python
`re.sub(r'\s+', ' ', text)`); the flag records whether the previous kept
character was a produced space. -/
def collapseWs : List Char → Bool → List Char
  | [], _ => []
  | c :: rest, prevSpace =>
    if isPySpace c then
      if prevSpace then collapseWs rest true else ' ' :: collapseWs rest true
    else c :: collapseWs rest false

/-- Python `str.strip` on a character list. -/
def stripL (l : List Char) : List Char :=
  ((l.dropWhile isPySpace).reverse.dropWhile isPySpace).reverse

/-- Characters `clean_text` keeps: `\w` (embedded for ASCII word characters;
Cyrillic letters are kept by the explicit `Ѐ-ӿ` range), whitespace,
the Cyrillic block, and `.,!?()-`. -/
def keepCh (c : Char) : Bool :=
  (('a' ≤ c && c ≤ 'z') || ('A' ≤ c && c ≤ 'Z') || isDigitCh c || c = '_')
  || isPySpace c
  || (0x400 ≤ c.toNat && c.toNat ≤ 0x4ff)
  || c = '.' || c = ',' || c = '!' || c = '?' || c = '(' || c = ')' || c = '-'

/-- Embedding of `utils.clean_text`: collapse whitespace, strip, then drop
every character outside the kept classes. -/
def clean_text (text : String) : String :=
  if text = "" then ""
  else ⟨(stripL (collapseWs text.toList false)).filter keepCh⟩

/-! ## `classify.py`: the seller classifier

`SellerClassifier.classify_seller` accumulates an owner score and an agency
score.  The keyword families and the hint check are substring tests and are
embedded directly; the five owner phrase regexes, the five agency phrase
regexes and the phone-number regex are `re` patterns, so the counts the
Python code derives from them (how many phrase patterns produced a non-empty
`findall`, how many phone matches occurred) enter as arguments
`ownerPhraseHits`, `agencyPhraseHits` and `phoneMatches`.  Scores use exact
rationals for Python's float literals 0.8, 0.3, 0.4, 0.2.  The `signals`
evidence dictionary is bookkeeping only and is not modelled. -/

/-- Owner keyword list of `SellerClassifier.__init__`. -/
def owner_keywords : List String :=
  ["власник", "власниця", "хазяїн", "хазяйка",
   "приватна особа", "приватний продавець",
   "без посередників", "без агентів", "без комісії",
   "від власника", "власне житло",
   "продаю власну", "здаю власну",
   "мій квартира", "моя квартира"]

/-- Agency keyword list of `SellerClassifier.__init__`. -/
def agency_keywords : List String :=
  ["агентство", "агент", "ріелтор", "рієлтор",
   "нерухомість", "компанія", "фірма",
   "послуги", "допомога", "консультація",
   "великий вибір", "багато варіантів",
   "база даних", "каталог",
   "ооо", "тов", "фоп", "чп"]

/-- Professional-vocabulary indicators used by the long-description
heuristic. -/
def professional_indicators : List String :=
  ["гарантуємо", "професійно", "досвід", "експерт",
   "консультація", "юридичний", "документи"]

/-- Combined text `f"{title} {description}".lower()` plus the lowered seller
name when it is truthy. -/
def combined_text (title description : String) (seller_name : Option String) : String :=
  let base := pyLowerStr (title ++ " " ++ description)
  match seller_name with
  | some n => if n = "" then base else base ++ " " ++ pyLowerStr n
  | none => base

/-- Number of keywords of `kws` occurring in `combined` (each adds one
0.3 increment in the Python loop). -/
def keyword_hits (combined : String) (kws : List String) : Nat :=
  (kws.filter (fun k => strContains combined k)).length

/-- Score contribution of `seller_type_hint`: 0.8 to the owner side for a
private-person hint, 0.8 to the agency side for an agency hint, nothing for
a falsy or unrecognized hint. -/
def hint_scores (seller_type_hint : Option String) : ℚ × ℚ :=
  match seller_type_hint with
  | none => (0, 0)
  | some h =>
    if h = "" then (0, 0)
    else
      let hl := pyLowerStr h
      if strContains hl "приватна особа" || strContains hl "власник" then (4/5, 0)
      else if strContains hl "агентство" || strContains hl "компанія" then (0, 4/5)
      else (0, 0)

/-- Agency bonus 0.2 for long descriptions with at least two professional
indicators in the combined text. -/
def professional_bonus (description combined : String) : ℚ :=
  if 500 < description.length then
    if 2 ≤ (professional_indicators.filter (fun k => strContains combined k)).length
    then 1/5 else 0
  else 0

/-- Agency bonus 0.2 when the phone regex found more than one match. -/
def phone_bonus (phoneMatches : Nat) : ℚ := if 1 < phoneMatches then 1/5 else 0

/-- Accumulated `(owner_score, agency_score)` of
`SellerClassifier.classify_seller` (classify.py lines 74-157). -/
def seller_scores (title description : String)
    (seller_name seller_type_hint : Option String)
    (ownerPhraseHits agencyPhraseHits phoneMatches : Nat) : ℚ × ℚ :=
  let combined := combined_text title description seller_name
  let hs := hint_scores seller_type_hint
  (hs.1 + (3/10) * (keyword_hits combined owner_keywords : ℚ)
        + (2/5) * (ownerPhraseHits : ℚ),
   hs.2 + (3/10) * (keyword_hits combined agency_keywords : ℚ)
        + (2/5) * (agencyPhraseHits : ℚ)
        + professional_bonus description combined
        + phone_bonus phoneMatches)

/-- Final decision rule of `classify_seller` (classify.py lines 159-171):
zero total gives `unknown`/0; a strictly higher owner score gives `owner`,
anything else gives `agency`; confidence is
`min(winning_score / max(total_score, 1.0), 1.0)`. -/
def classify_decision (owner_score agency_score : ℚ) : String × ℚ :=
  let total_score := owner_score + agency_score
  if total_score = 0 then ("unknown", 0)
  else if agency_score < owner_score then
    ("owner", min (owner_score / max total_score 1) 1)
  else
    ("agency", min (agency_score / max total_score 1) 1)

/-- Embedding of `SellerClassifier.classify_seller`: the returned
`(seller_type, confidence)`. -/
def classify_seller (title description : String)
    (seller_name seller_type_hint : Option String)
    (ownerPhraseHits agencyPhraseHits phoneMatches : Nat) : String × ℚ :=
  let s := seller_scores title description seller_name seller_type_hint
    ownerPhraseHits agencyPhraseHits phoneMatches
  classify_decision s.1 s.2

/-! ## `config.py`: street→district table and defaults -/

/-- Embedding of `config.STREET_TO_DISTRICT` (config.py lines 105-190), in
source order with Python dict-literal semantics: the duplicated key
"Набережна Стефаника" keeps its first position (the Софіївка block) and its
last value ("Набережна").  Two entries carry the replacement characters
present in the source file itself. -/
def STREET_TO_DISTRICT : List (String × String) :=
  [("Августина Волошина", "Центр"), ("Арсенальна", "Центр"), ("Вічева", "Центр"),
   ("Галицька", "Центр"), ("Гетьмана Мазепи", "Центр"), ("Грушевського", "Центр"),
   ("Данила Галицького", "Центр"), ("Дністровська", "Центр"),
   ("Європейська", "Центр"), ("Євгена Коновальця", "Центр"),
   ("Січових Стрільців", "Центр"), ("Шевченка", "Центр"),
   ("Незалежності", "Центр"), ("Леся Курбаса", "Центр"), ("Мазепи", "Центр"),
   ("Міцкевича", "Центр"), ("Курбаса", "Центр"),
   ("Пасічна", "Пасічна"), ("Старопасічна", "Пасічна"),
   ("Пасічна Нова", "Пасічна"), ("Пасічний провулок", "Пасічна"),
   ("Трускавецька", "Пасічна"), ("Промислова", "Пасічна"), ("Зелена", "Пасічна"),
   ("Північна", "БАМ"), ("Відінська", "БАМ"), ("БАМ", "БАМ"),
   ("Богдана Хмельницького", "БАМ"), ("Будівельна", "БАМ"),
   ("Молодіжна", "БАМ"), ("Польова", "БАМ"),
   ("Каскадна", "Каскад"), ("Тисменицька", "Каскад"), ("Вишнева", "Каскад"),
   ("Ярослава Мудрого", "Каскад"), ("Пушкіна", "Каскад"), ("Лермонтова", "Каскад"),
   ("Залізнична", "Залізничний (Вокзал)"), ("Привокзальна", "Залізничний (Вокзал)"),
   ("Вокзальна", "Залізничний (Вокзал)"), ("Станційна", "Залізничний (Вокзал)"),
   ("Перонна", "Залізничний (Вокзал)"),
   ("Братів Бойчуків", "Брати"), ("Братів Рогатинців", "Брати"),
   ("Чорновола", "Брати"), ("Стуса", "Брати"), ("Антоновича", "Брати"),
   ("Софіївська", "Софіївка"), ("Академіка Сахарова", "Софіївка"),
   ("Сахарова", "Софіївка"), ("Надбережна", "Софіївка"),
   ("Набережна Стефаника", "Набережна"),
   ("Будівельників", "Будівельників"), ("Конструкторська", "Будівельників"),
   ("Робітнича", "Будівельників"), ("Енергетична", "Будівельників"),
   ("Монтажна", "Будівельників"),
   ("Набережна", "Набережна"), ("Річна", "Набережна"),
   ("Прибережна", "Набе��ежна"),
   ("Опришівська", "Опришівці"), ("Довбуша", "Опришівці"),
   ("Карпатська", "Опришівці"), ("Гуцульська", "Опришівці")]

/-- Modelled from the spec: `parsing.py` initializes `self.street_mapping`
from `config.STREET_DISTRICT_MAPPING`, a constant the repository's `config.py`
does not define.  The spec (§3, StreetDistrictMapping) describes one
street→district lookup table consulted read-only by the resolver, and
`config.py` provides exactly such a table as `STREET_TO_DISTRICT`, which
stands in for the missing constant. -/
def STREET_DISTRICT_MAPPING : List (String × String) := STREET_TO_DISTRICT

/-- Default district `ScrapingConfig.DEFAULT_DISTRICT` (env default). -/
def DEFAULT_DISTRICT : String := "Центр"

/-- Base URL `ScrapingConfig.BASE_URL`. -/
def BASE_URL : String := "https://www.olx.ua"

/-! ## `parsing.py`: `PropertyParser._determine_district` -/

/-- One alternative of a heuristic district pattern: a literal substring, or
the one non-literal alternative `24\s*серпн`. -/
inductive DPat where
  | lit (s : String)
  | serpn24
deriving DecidableEq

/-- Scan for `24` followed by optional whitespace and `серпн`. -/
def serpnScan : List Char → Bool
  | [] => false
  | c :: rest =>
    (match c, rest with
     | '2', '4' :: r => "серпн".toList.isPrefixOf (r.dropWhile isPySpace)
     | _, _ => false) || serpnScan rest

/-- Whether one pattern alternative matches the combined text. -/
def dpatMatches (combined : String) : DPat → Bool
  | .lit s => strContains combined s
  | .serpn24 => serpnScan combined.toList

/-- Heuristic district patterns of `_determine_district` (parsing.py lines
304-315), each regex alternation split into its alternatives, in source
order.  One alternative carries the replacement characters present in the
source file itself. -/
def district_patterns : List (List DPat × String) :=
  [([.lit "центр", .lit "галицьк", .lit "незалежност"], "Центр"),
   ([.lit "пасічн", .lit "тролейбус"], "Пасічна"),
   ([.lit "бам", .lit "івасюк", .lit "надрічн"], "БАМ"),
   ([.lit "каскад", .serpn24], "Каскад"),
   ([.lit "вокзал", .lit "стефаник", .lit "залізнич"], "Залізничний (Вокзал)"),
   ([.lit "брати", .lit "хо��кевич"], "Брати"),
   ([.lit "софіїв", .lit "пстрак"], "Софіївка"),
   ([.lit "будівельник", .lit "селянськ"], "Будівельників"),
   ([.lit "набережн", .lit "дністров"], "Набережна"),
   ([.lit "опришів", .lit "гуцульськ"], "Опришівці")]

/-- Result record of `_determine_district`. -/
structure DistrictInfo where
  district : Option String
  street : Option String
  source : String
deriving DecidableEq, Repr

/-- Embedding of `PropertyParser._determine_district` (parsing.py lines
288-323): lowercase the combined location text and description; return the
first street of the mapping whose lowered name occurs in it (source
`street_mapping`); otherwise the first heuristic pattern group that matches
(source `text_heuristic`); otherwise the initial record
`district=None, street=None, source="unknown"`. -/
def determine_district (street_mapping : List (String × String))
    (location_text description : String) : DistrictInfo :=
  let combined := pyLowerStr (location_text ++ " " ++ description)
  match street_mapping.find? (fun sd => strContains combined (pyLowerStr sd.1)) with
  | some sd => ⟨some sd.2, some sd.1, "street_mapping"⟩
  | none =>
    match district_patterns.find? (fun pd => pd.1.any (dpatMatches combined)) with
    | some pd => ⟨some pd.2, none, "text_heuristic"⟩
    | none => ⟨none, none, "unknown"⟩

/-! ## `olx_scraper.py`: id extraction, location, and the listing pipeline -/

/-- Leftmost match of `/(\d+)-` in a URL: a slash, a digit run, a dash. -/
def olxIdScan : List Char → Option (List Char)
  | [] => none
  | c :: rest =>
    (if c = '/' then
      match rest with
      | d :: _ =>
        if isDigitCh d then
          match rest.dropWhile isDigitCh with
          | '-' :: _ => some (rest.takeWhile isDigitCh)
          | _ => none
        else none
      | [] => none
     else none).orElse (fun _ => olxIdScan rest)

/-- Leftmost match of `ID(\d+)` in a URL. -/
def olxIdScanAlt : List Char → Option (List Char)
  | [] => none
  | c :: rest =>
    (match c, rest with
     | 'I', 'D' :: d :: tail =>
       if isDigitCh d then some ((d :: tail).takeWhile isDigitCh) else none
     | _, _ => none).orElse (fun _ => olxIdScanAlt rest)

/-- Embedding of `BotasaurusOLXScraper._extract_olx_id` (olx_scraper.py
lines 258-273): first the `/(\d+)-` pattern, then the `ID(\d+)` pattern,
else `None`. -/
def extract_olx_id (url : String) : Option String :=
  match olxIdScan url.toList with
  | some ds => some ⟨ds⟩
  | none =>
    match olxIdScanAlt url.toList with
    | some ds => some ⟨ds⟩
    | none => none

/-- Embedding of `BotasaurusOLXScraper._determine_location` (olx_scraper.py
lines 275-290).  Tier 1 scans `STREET_TO_DISTRICT` for a street whose lowered
name occurs in the lowered location text.  If no street matches, the source
next evaluates `self.config.DISTRICTS` — but `DISTRICTS` is a module-level
constant of config.py, not an attribute of the `ScrapingConfig` dataclass, so
that attribute access raises `AttributeError` and neither the direct-district
tier nor the `DEFAULT_DISTRICT` fallthrough below it is reachable; the
embedding returns that error. -/
def determine_location (location_text : String) :
    Except String (String × Option String) :=
  let ll := pyLowerStr location_text
  match STREET_TO_DISTRICT.find? (fun sd => strContains ll (pyLowerStr sd.1)) with
  | some sd => .ok (sd.2, some sd.1)
  | none => .error "AttributeError: ScrapingConfig has no attribute DISTRICTS"

/-- Raw texts of the four card elements `_parse_single_listing` reads; `none`
models a selector that found no element. -/
structure Fragment where
  title_elem : Option String
  price_elem : Option String
  location_elem : Option String
  link_elem : Option String
deriving DecidableEq, Repr

/-- Candidate record `_parse_single_listing` builds; the fields the
properties below speak about (details, seller classification, images and
dates are downstream of every decision point modelled here and are
omitted). -/
structure Candidate where
  olx_id : String
  title : String
  price_usd : Option ℚ
  currency : String
  district : String
  street : Option String
  full_location : String
deriving DecidableEq, Repr

/-- Full listing URL: a root-relative href is prefixed with `BASE_URL`
(olx_scraper.py lines 191-193). -/
def build_listing_url (href : String) : String :=
  if href.toList.take 1 = ['/'] then BASE_URL ++ href else href

/-- Embedding of `BotasaurusOLXScraper._parse_single_listing` (olx_scraper.py
lines 175-256) through its decision points: all four elements must be
present; texts are cleaned with `clean_text`; an unextractable OLX id drops
the listing; a currency other than `"USD"` after `extract_price` drops the
listing; a `_determine_location` failure is caught by the enclosing `except`
and drops the listing; otherwise a candidate is returned. -/
def parse_single_listing (f : Fragment) : Option Candidate :=
  match f.title_elem, f.price_elem, f.location_elem, f.link_elem with
  | some tRaw, some pRaw, some lRaw, some href =>
    let title := clean_text tRaw
    let price_text := clean_text pRaw
    let location_text := clean_text lRaw
    let listing_url := build_listing_url href
    match extract_olx_id listing_url with
    | none => none
    | some olx_id =>
      let pc := extract_price price_text
      if pc.2 ≠ "USD" then none
      else
        match determine_location location_text with
        | .error _ => none
        | .ok ds =>
          some ⟨olx_id, title, pc.1, pc.2, ds.1, ds.2, location_text⟩
  | _, _, _, _ => none

/-! ## `persist.py`: the offers store

`_ensure_database_exists` (persist.py lines 29-89) creates exactly two
tables, `offers` and `scraping_sessions`; there is no price-history table in
the schema and no other statement of `persist.py` writes one.  `offers` rows
are embedded field by field; `TEXT` timestamp columns become naturals,
`REAL` becomes an exact rational, `BOOLEAN` becomes `Bool`.  `CURRENT_TIMESTAMP`
and `datetime.utcnow()` within one call are both modelled by the call's
single clock argument `now`. -/

/-- One row of the `offers` table. -/
structure OfferRow where
  ad_id : String
  title : String
  url : String
  price_value : Option ℚ
  price_currency : String
  location_city : String
  location_text : String
  district : Option String
  street : Option String
  rooms : Option Int
  area_total : Option ℚ
  floor : Option Int
  floors_total : Option Int
  building_type : Option String
  renovation : Option String
  description : String
  seller_type : String
  seller_name : Option String
  seller_signals : String
  district_source : String
  is_active : Bool
  first_seen_at : Nat
  last_seen_at : Nat
  scraped_at : Nat
  created_at : Nat
  updated_at : Nat
deriving DecidableEq, Repr

/-- One row of the `scraping_sessions` table (created by the schema, never
touched by the operations verified here). -/
structure SessionRow where
  session_id : String
  start_time : Option Nat
  end_time : Option Nat
  mode : String
  pages_scraped : Int
  total_processed : Int
  total_new : Int
  total_updated : Int
  total_errors : Int
  success : Bool
  error_message : Option String
deriving DecidableEq, Repr

/-- The whole SQLite database `_ensure_database_exists` creates: the two
tables and nothing else. -/
structure DBState where
  offers : List OfferRow
  sessions : List SessionRow
deriving DecidableEq, Repr

/-- The freshly created, empty database. -/
def DBState.init : DBState := ⟨[], []⟩

/-- Candidate data handed to `save_property` (models.PropertyData as the
`UPDATE`/`INSERT` statements consume it).  `__post_init__` guarantees
`scraped_at` is set, so it is a plain natural; the dataclass's own
`first_seen_at`/`last_seen_at` are overwritten by `save_property` in both
branches before use and so do not appear.  `seller_signals` stands for the
JSON dump the code stores. -/
structure PropertyData where
  ad_id : String
  title : String
  url : String
  price_value : Option ℚ
  price_currency : String
  location_city : String
  location_text : String
  district : Option String := none
  street : Option String := none
  rooms : Option Int := none
  area_total : Option ℚ := none
  floor : Option Int := none
  floors_total : Option Int := none
  building_type : Option String := none
  renovation : Option String := none
  description : String := ""
  seller_type : String := "unknown"
  seller_name : Option String := none
  seller_signals : String := ""
  district_source : String := "unknown"
  is_active : Bool := true
  scraped_at : Nat
deriving DecidableEq, Repr

/-- The `UPDATE offers SET ...` of `save_property` (persist.py lines
113-137) applied to one stored row: every listed mutable column is
overwritten, `is_active` is set to 1 and `last_seen_at` to the current time;
`ad_id`, `first_seen_at` and `created_at` are not in the SET list and keep
their stored values. -/
def updateRow (p : PropertyData) (now : Nat) (r : OfferRow) : OfferRow :=
  { r with
    title := p.title, url := p.url, price_value := p.price_value,
    price_currency := p.price_currency, location_city := p.location_city,
    location_text := p.location_text, district := p.district,
    street := p.street, rooms := p.rooms, area_total := p.area_total,
    floor := p.floor, floors_total := p.floors_total,
    building_type := p.building_type, renovation := p.renovation,
    description := p.description, seller_type := p.seller_type,
    seller_name := p.seller_name, seller_signals := p.seller_signals,
    district_source := p.district_source, is_active := true,
    last_seen_at := now, scraped_at := p.scraped_at, updated_at := now }

/-- The `INSERT INTO offers` of `save_property` (persist.py lines 142-172):
`first_seen_at = last_seen_at = utcnow()`, `is_active` from the candidate,
`created_at`/`updated_at` from the database clock. -/
def insertRow (p : PropertyData) (now : Nat) : OfferRow :=
  { ad_id := p.ad_id, title := p.title, url := p.url,
    price_value := p.price_value, price_currency := p.price_currency,
    location_city := p.location_city, location_text := p.location_text,
    district := p.district, street := p.street, rooms := p.rooms,
    area_total := p.area_total, floor := p.floor,
    floors_total := p.floors_total, building_type := p.building_type,
    renovation := p.renovation, description := p.description,
    seller_type := p.seller_type, seller_name := p.seller_name,
    seller_signals := p.seller_signals, district_source := p.district_source,
    is_active := p.is_active, first_seen_at := now, last_seen_at := now,
    scraped_at := p.scraped_at, created_at := now, updated_at := now }

/-- Embedding of `DataPersistence.save_property` (persist.py lines 91-179):
look up the candidate's `ad_id`; when found, run the `UPDATE` on every row
with that key and report `(False, "updated")`; otherwise append the inserted
row and report `(True, "inserted")`. -/
def save_property (db : DBState) (p : PropertyData) (now : Nat) :
    DBState × Bool × String :=
  match db.offers.find? (fun r => r.ad_id == p.ad_id) with
  | some _ =>
    ({ db with offers :=
        db.offers.map (fun r => if r.ad_id == p.ad_id then updateRow p now r else r) },
     false, "updated")
  | none =>
    ({ db with offers := db.offers ++ [insertRow p now] }, true, "inserted")

/-- A row as the sweep's `SET is_active = 0, last_seen_at = ?` leaves it. -/
def deactivateRow (t : Nat) (r : OfferRow) : OfferRow :=
  { r with is_active := false, last_seen_at := t }

/-- Embedding of `DataPersistence.mark_inactive_properties` (persist.py lines
209-241).  A non-empty seen list runs
`UPDATE offers SET is_active = 0, last_seen_at = ? WHERE ad_id NOT IN (...)
AND is_active = 1`; an empty seen list takes the `else` branch, whose comment
reads "No properties seen - mark all as inactive", and runs the same UPDATE
with no `NOT IN` filter, deactivating every active row.  No branch raises or
reports an error. -/
def mark_inactive_properties (db : DBState) (seen : List String) (t : Nat) :
    DBState :=
  match seen with
  | [] =>
    { db with offers :=
        db.offers.map (fun r => if r.is_active then deactivateRow t r else r) }
  | _ :: _ =>
    { db with offers :=
        db.offers.map (fun r =>
          if r.is_active && !(seen.contains r.ad_id) then deactivateRow t r else r) }

/-! ## Concrete data used by witnesses and counterexamples -/

/-- A stored, active offer row (the spec's §8 concrete scenario record). -/
def sampleRow : OfferRow :=
  { ad_id := "123", title := "2-room, Центр",
    url := "https://www.olx.ua/d/uk/obyavlenie/123-x.html",
    price_value := some 50000, price_currency := "USD",
    location_city := "Івано-Франківськ", location_text := "Центр",
    district := some "Центр", street := none, rooms := some 2,
    area_total := some 65, floor := none, floors_total := none,
    building_type := none, renovation := none, description := "",
    seller_type := "owner", seller_name := none, seller_signals := "",
    district_source := "street_mapping", is_active := true,
    first_seen_at := 1, last_seen_at := 1, scraped_at := 1,
    created_at := 1, updated_at := 1 }

/-- The same identity after a sweep marked it inactive. -/
def inactiveRow : OfferRow := { sampleRow with is_active := false, last_seen_at := 3 }

/-- A second, distinct active row. -/
def otherRow : OfferRow :=
  { sampleRow with ad_id := "999", url := "https://www.olx.ua/d/uk/obyavlenie/999-x.html" }

/-- A listing card whose price text holds no digits ("price negotiable"). -/
def fragNoPrice : Fragment :=
  ⟨some "2-кімнатна квартира", some "ціна договірна", some "вул. Галицька",
   some "/d/uk/obyavlenie/123456-kvartira.html"⟩

/-- A listing card whose price text has a number but no currency marker. -/
def fragBarePrice : Fragment :=
  ⟨some "2-кімнатна квартира", some "50 000", some "вул. Галицька",
   some "/d/uk/obyavlenie/123456-kvartira.html"⟩

/-- Candidate for ad 123 at a given price. -/
def samplePD (price : ℚ) : PropertyData :=
  { ad_id := "123", title := "2-room, Центр",
    url := "https://www.olx.ua/d/uk/obyavlenie/123-x.html",
    price_value := some price, price_currency := "USD",
    location_city := "Івано-Франківськ", location_text := "Центр",
    district := some "Центр", seller_type := "owner",
    district_source := "street_mapping", scraped_at := 2 }

/-! ## List helper lemmas -/

theorem list_get?_map {α β : Type} (f : α → β) (l : List α) (n : Nat) :
    (l.map f).get? n = (l.get? n).map f := by
  induction l generalizing n with
  | nil => simp
  | cons a t ih =>
    cases n with
    | zero => simp
    | succ m => exact ih m

theorem find?_some_of_mem {α : Type} (p : α → Bool) {l : List α} {x : α}
    (hx : x ∈ l) (hpx : p x = true) : ∃ y, l.find? p = some y := by
  induction l with
  | nil => cases hx
  | cons a t ih =>
    cases hpa : p a with
    | true => exact ⟨a, by simp [List.find?_cons, hpa]⟩
    | false =>
      rcases List.mem_cons.1 hx with rfl | hxt
      · exact absurd hpx (by simp [hpa])
      · rcases ih hxt with ⟨y, hy⟩
        exact ⟨y, by simp [List.find?_cons, hpa, hy]⟩

theorem find?_some_of_filter_ne_nil {α : Type} (p : α → Bool) (l : List α)
    (h : l.filter p ≠ []) : ∃ y, l.find? p = some y := by
  induction l with
  | nil => exact absurd rfl h
  | cons a t ih =>
    cases hpa : p a with
    | true => exact ⟨a, by simp [List.find?_cons, hpa]⟩
    | false =>
      rcases ih (by simpa [List.filter_cons, hpa] using h) with ⟨y, hy⟩
      exact ⟨y, by simp [List.find?_cons, hpa, hy]⟩

theorem filter_map_keyed (l : List OfferRow) (aid : String)
    (g : OfferRow → OfferRow) (hg : ∀ x, (g x).ad_id = x.ad_id) :
    (l.map (fun r => if r.ad_id == aid then g r else r)).filter
        (fun r => r.ad_id == aid) =
      (l.filter (fun r => r.ad_id == aid)).map g := by
  induction l with
  | nil => rfl
  | cons a t ih =>
    simp only [List.map_cons, List.filter_cons]
    by_cases hpa : a.ad_id = aid
    · simp [hpa, hg a]
      simpa using ih
    · simp [hpa]
      simpa using ih

/-! ## C1: sweep with an empty seen set -/

/-- C1, counterexample: on a store holding one active record, the sweep with
an empty seen set is not refused — it deactivates the record and stamps its
`last_seen_at` with the sweep time, contradicting the claim that the call is
rejected with every record's `is_active` and `last_seen_at` unchanged. -/
theorem C1_empty_sweep_counterexample :
    mark_inactive_properties ⟨[sampleRow], []⟩ [] 5 =
      ⟨[{ sampleRow with is_active := false, last_seen_at := 5 }], []⟩ ∧
    sampleRow.is_active = true ∧ sampleRow.last_seen_at = 1 :=
  ⟨rfl, rfl, rfl⟩

/-- C1, amended: `mark_inactive_properties` with an empty seen-id set is not
refused and surfaces no error; it marks every active record inactive,
stamping `last_seen_at` with the sweep time on exactly those rows, and leaves
already-inactive rows (and the sessions table) unchanged. -/
theorem C1_empty_sweep_mass_deactivation (db : DBState) (t : Nat) :
    (mark_inactive_properties db [] t).sessions = db.sessions ∧
    (mark_inactive_properties db [] t).offers.length = db.offers.length ∧
    (∀ r ∈ (mark_inactive_properties db [] t).offers, r.is_active = false) ∧
    ∀ i, (mark_inactive_properties db [] t).offers.get? i =
      (db.offers.get? i).map
        (fun r => if r.is_active then deactivateRow t r else r) := by
  refine ⟨rfl, by simp [mark_inactive_properties], ?_, ?_⟩
  · intro r hr
    simp only [mark_inactive_properties] at hr
    rcases List.mem_map.1 hr with ⟨x, _, rfl⟩
    by_cases h : x.is_active <;> simp [h, deactivateRow]
  · intro i
    simp only [mark_inactive_properties]
    exact list_get?_map _ _ _

/-! ## C7: sweep with a non-empty seen set -/

/-- C7: for a non-empty seen set that is a strict subset of the active
external ids, the sweep leaves the sessions table and the row count
unchanged, leaves every row whose id is in the seen set and every
already-inactive row untouched, and turns exactly the active rows outside
the seen set into inactive rows stamped `last_seen_at = t`, all their other
fields unchanged. -/
theorem C7_sweep_deactivates_exactly_complement (db : DBState)
    (seen : List String) (t : Nat)
    (hne : seen ≠ [])
    (hsub : ∀ s ∈ seen, ∃ r ∈ db.offers, r.is_active = true ∧ r.ad_id = s)
    (hstrict : ∃ r ∈ db.offers, r.is_active = true ∧ seen.contains r.ad_id = false) :
    (mark_inactive_properties db seen t).sessions = db.sessions ∧
    (mark_inactive_properties db seen t).offers.length = db.offers.length ∧
    ∀ i r, db.offers.get? i = some r →
      (seen.contains r.ad_id = true →
        (mark_inactive_properties db seen t).offers.get? i = some r) ∧
      (r.is_active = false →
        (mark_inactive_properties db seen t).offers.get? i = some r) ∧
      (r.is_active = true → seen.contains r.ad_id = false →
        (mark_inactive_properties db seen t).offers.get? i =
          some (deactivateRow t r)) := by
  rcases seen with _ | ⟨s0, srest⟩
  · exact absurd rfl hne
  refine ⟨rfl, by simp [mark_inactive_properties], ?_⟩
  intro i r hr
  simp only [mark_inactive_properties]
  rw [list_get?_map, hr]
  refine ⟨?_, ?_, ?_⟩
  · intro hin
    have hc : ¬ ((r.is_active && !((s0 :: srest).contains r.ad_id)) = true) := by
      rw [hin]; simp
    simp only [Option.map_some']
    rw [if_neg hc]
  · intro hact
    have hc : ¬ ((r.is_active && !((s0 :: srest).contains r.ad_id)) = true) := by
      rw [hact]; simp
    simp only [Option.map_some']
    rw [if_neg hc]
  · intro hact hout
    have hc : (r.is_active && !((s0 :: srest).contains r.ad_id)) = true := by
      rw [hact, hout]; rfl
    simp only [Option.map_some']
    rw [if_pos hc]

/-- C7, witness: a store with active rows 123 and 999, swept with seen set
containing only 123, deactivates exactly row 999 with the sweep time. -/
theorem C7_sweep_witness :
    (mark_inactive_properties ⟨[sampleRow, otherRow], []⟩ ["123"] 9).offers.get? 1 =
      some (deactivateRow 9 otherRow) ∧
    (mark_inactive_properties ⟨[sampleRow, otherRow], []⟩ ["123"] 9).offers.get? 0 =
      some sampleRow := by
  have h := C7_sweep_deactivates_exactly_complement ⟨[sampleRow, otherRow], []⟩
    ["123"] 9 (by decide)
    (by
      intro s hs
      simp only [List.mem_singleton] at hs
      exact ⟨sampleRow, by simp [sampleRow], by simp [sampleRow, hs]⟩)
    ⟨otherRow, by simp [otherRow, sampleRow], rfl, rfl⟩
  exact ⟨(h.2.2 1 otherRow rfl).2.2 rfl rfl, (h.2.2 0 sampleRow rfl).1 rfl⟩

/-! ## C3: the update branch never touches identity fields -/

/-- C3: upserting a candidate whose `ad_id` already has a stored record takes
the `UPDATE` branch, reports `(False, "updated")`, keeps the row count, and
leaves every row's `ad_id`, `first_seen_at` and `created_at` exactly as
stored — those columns are absent from the SET list, so only the other,
mutable columns can change. -/
theorem C3_update_preserves_identity (db : DBState) (p : PropertyData) (now : Nat)
    (h : ∃ r ∈ db.offers, r.ad_id = p.ad_id) :
    (save_property db p now).2 = (false, "updated") ∧
    ((save_property db p now).1).sessions = db.sessions ∧
    ((save_property db p now).1).offers.length = db.offers.length ∧
    ∀ i, (((save_property db p now).1).offers.get? i).map OfferRow.ad_id =
           (db.offers.get? i).map OfferRow.ad_id ∧
         (((save_property db p now).1).offers.get? i).map OfferRow.first_seen_at =
           (db.offers.get? i).map OfferRow.first_seen_at ∧
         (((save_property db p now).1).offers.get? i).map OfferRow.created_at =
           (db.offers.get? i).map OfferRow.created_at := by
  rcases h with ⟨r, hr, hid⟩
  rcases find?_some_of_mem (fun x => x.ad_id == p.ad_id) hr (by simp [hid])
    with ⟨y, hy⟩
  simp only [save_property, hy]
  refine ⟨by trivial, by trivial, by simp, ?_⟩
  intro i
  rw [list_get?_map]
  cases hg : db.offers.get? i with
  | none => exact ⟨rfl, rfl, rfl⟩
  | some x =>
    by_cases hx : x.ad_id = p.ad_id
    · simp [hx, updateRow]
    · simp [hx]

/-- C3, witness: updating the stored record 123 keeps its `ad_id`,
`first_seen_at` and `created_at` and reports an update. -/
theorem C3_update_witness :
    (save_property ⟨[sampleRow], []⟩ (samplePD 52000) 7).2 = (false, "updated") ∧
    (((save_property ⟨[sampleRow], []⟩ (samplePD 52000) 7).1).offers.get? 0).map
        OfferRow.first_seen_at = some 1 ∧
    (((save_property ⟨[sampleRow], []⟩ (samplePD 52000) 7).1).offers.get? 0).map
        OfferRow.ad_id = some "123" := by
  have h := C3_update_preserves_identity ⟨[sampleRow], []⟩ (samplePD 52000) 7
    ⟨sampleRow, by simp, rfl⟩
  exact ⟨h.1, ((h.2.2.2 0).2.1).trans rfl, ((h.2.2.2 0).1).trans rfl⟩

/-! ## C8: reactivation of a swept record -/

/-- C8: when the store holds exactly one (inactive) record for the
candidate's `ad_id`, `save_property` takes the update branch and the store
afterwards still holds exactly one record for that id — the updated row,
which is unconditionally active again, has `last_seen_at` set to the call's
clock, and keeps its stored `first_seen_at` and `ad_id`. -/
theorem C8_reactivation (db : DBState) (p : PropertyData) (now : Nat)
    (r : OfferRow)
    (huniq : db.offers.filter (fun x => x.ad_id == p.ad_id) = [r])
    (_hinactive : r.is_active = false) :
    (save_property db p now).2 = (false, "updated") ∧
    ((save_property db p now).1).offers.filter (fun x => x.ad_id == p.ad_id) =
      [updateRow p now r] ∧
    (updateRow p now r).is_active = true ∧
    (updateRow p now r).last_seen_at = now ∧
    (updateRow p now r).first_seen_at = r.first_seen_at ∧
    (updateRow p now r).ad_id = r.ad_id := by
  rcases find?_some_of_filter_ne_nil (fun x => x.ad_id == p.ad_id) db.offers
    (by rw [huniq]; exact List.cons_ne_nil r []) with ⟨y, hy⟩
  simp only [save_property, hy]
  refine ⟨by trivial, ?_, by trivial, by trivial, by trivial, by trivial⟩
  rw [filter_map_keyed db.offers p.ad_id (updateRow p now) (fun x => rfl), huniq]
  rfl

/-- C8, witness: the inactive record 123, seen again at time 7, is the sole
record for id 123 and is active again with its original `first_seen_at`. -/
theorem C8_reactivation_witness :
    (save_property ⟨[inactiveRow], []⟩ (samplePD 52000) 7).2 = (false, "updated") ∧
    ((save_property ⟨[inactiveRow], []⟩ (samplePD 52000) 7).1).offers.filter
        (fun x => x.ad_id == "123") = [updateRow (samplePD 52000) 7 inactiveRow] ∧
    (updateRow (samplePD 52000) 7 inactiveRow).is_active = true ∧
    (updateRow (samplePD 52000) 7 inactiveRow).last_seen_at = 7 ∧
    (updateRow (samplePD 52000) 7 inactiveRow).first_seen_at = 1 := by
  have h := C8_reactivation ⟨[inactiveRow], []⟩ (samplePD 52000) 7 inactiveRow
    (by rfl) (by rfl)
  exact ⟨h.1, h.2.1, h.2.2.1, h.2.2.2.1, h.2.2.2.2.1⟩

/-! ## C2: no price history exists to append to -/

/-- C2, evaluation at the failing input: the database schema of
`_ensure_database_exists` holds only the `offers` and `scraping_sessions`
tables.  Upserting ad 123 at price 50000 and then re-upserting it at the
changed price 52000 leaves the whole database equal to one updated offer row
(price 52000) and an empty sessions table: the prior price 50000 survives
nowhere, and no price-history entry is appended anywhere, because
`persist.py` has no price-history table at all. -/
theorem C2_price_change_appends_no_history :
    (save_property
        ((save_property DBState.init (samplePD 50000) 1).1)
        (samplePD 52000) 2).1 =
      ⟨[updateRow (samplePD 52000) 2 (insertRow (samplePD 50000) 1)], []⟩ ∧
    (updateRow (samplePD 52000) 2 (insertRow (samplePD 50000) 1)).price_value =
      some 52000 ∧
    (insertRow (samplePD 50000) 1).price_value = some 50000 :=
  ⟨rfl, rfl, rfl⟩

/-! ## C4 and C9: the classifier decision rule -/

theorem hint_scores_nonneg (h : Option String) :
    0 ≤ (hint_scores h).1 ∧ 0 ≤ (hint_scores h).2 := by
  rcases h with _ | s
  · exact ⟨le_refl 0, le_refl 0⟩
  · simp only [hint_scores]
    split_ifs <;> norm_num

theorem professional_bonus_nonneg (d c : String) : 0 ≤ professional_bonus d c := by
  simp only [professional_bonus]
  split_ifs <;> norm_num

theorem phone_bonus_nonneg (n : Nat) : 0 ≤ phone_bonus n := by
  simp only [phone_bonus]
  split_ifs <;> norm_num

theorem seller_scores_nonneg (title description : String)
    (sn hint : Option String) (oph aph pm : Nat) :
    0 ≤ (seller_scores title description sn hint oph aph pm).1 ∧
    0 ≤ (seller_scores title description sn hint oph aph pm).2 := by
  have h1 := hint_scores_nonneg hint
  have h2 := professional_bonus_nonneg description
    (combined_text title description sn)
  have h3 := phone_bonus_nonneg pm
  constructor
  · refine add_nonneg (add_nonneg h1.1 ?_) ?_ <;>
      exact mul_nonneg (by norm_num) (Nat.cast_nonneg _)
  · refine add_nonneg (add_nonneg (add_nonneg (add_nonneg h1.2 ?_) ?_) h2) h3 <;>
      exact mul_nonneg (by norm_num) (Nat.cast_nonneg _)

/-- Scores for a bare title: no hint, empty description, no phrase or phone
matches, so each side is 0.3 times its keyword-hit count. -/
theorem seller_scores_eval (title : String) :
    seller_scores title "" none none 0 0 0 =
      ((3/10 : ℚ) * (keyword_hits (combined_text title "" none) owner_keywords : ℚ),
       (3/10 : ℚ) * (keyword_hits (combined_text title "" none) agency_keywords : ℚ)) := by
  have hpb : professional_bonus "" (combined_text title "" none) = 0 := by
    simp only [professional_bonus]
    rw [if_neg (by decide)]
  have hph : phone_bonus 0 = 0 := by
    simp only [phone_bonus]
    rw [if_neg (by decide)]
  simp only [seller_scores, hint_scores, hpb, hph]
  rw [Prod.ext_iff]
  constructor <;> (simp; try ring)

/-- C4, counterexample: the title "власник" alone scores
`(owner, agency) = (0.3, 0)`, so the claimed confidence
`winning_score / (ownerScore + agencyScore)` clamped to `[0,1]` would be 1,
but `classify_seller` divides by `max(total_score, 1.0)` and returns
confidence 0.3. -/
theorem C4_confidence_counterexample :
    seller_scores "власник" "" none none 0 0 0 = (3/10, 0) ∧
    classify_seller "власник" "" none none 0 0 0 = ("owner", 3/10) ∧
    ¬ ((3 : ℚ)/10 = min (max (((3 : ℚ)/10) / ((3 : ℚ)/10 + 0)) 0) 1) := by
  have hk1 : keyword_hits (combined_text "власник" "" none) owner_keywords = 1 := by
    decide
  have hk2 : keyword_hits (combined_text "власник" "" none) agency_keywords = 0 := by
    decide
  have hs : seller_scores "власник" "" none none 0 0 0 = (3/10, 0) := by
    rw [seller_scores_eval, hk1, hk2]
    norm_num
  have hcs : classify_seller "власник" "" none none 0 0 0 =
      classify_decision (seller_scores "власник" "" none none 0 0 0).1
        (seller_scores "власник" "" none none 0 0 0).2 := rfl
  have hc : classify_seller "власник" "" none none 0 0 0 = ("owner", 3/10) := by
    rw [hcs, hs]
    simp only [classify_decision]
    rw [if_neg (by norm_num), if_pos (by norm_num)]
    rw [show max ((3 : ℚ)/10 + 0) 1 = 1 from max_eq_right (by norm_num), div_one]
    rw [show min ((3 : ℚ)/10) 1 = 3/10 from min_eq_left (by norm_num)]
  refine ⟨hs, hc, ?_⟩
  rw [show ((3 : ℚ)/10 + 0) = 3/10 by ring,
    div_self (by norm_num : ((3 : ℚ)/10) ≠ 0),
    max_eq_left zero_le_one, min_self]
  norm_num

/-- C4, amended: when both accumulated scores are zero (equivalently, their
sum is zero, since both are nonnegative) the classifier returns `unknown`
with confidence 0; otherwise a strictly higher owner score wins as `owner`
and every other case (including ties) returns `agency`, with confidence
`min(winning_score / max(total_score, 1), 1)`, which always lies in
`[0, 1]`. -/
theorem C4_decision_rule_amended (title description : String)
    (sn hint : Option String) (oph aph pm : Nat) :
    ((seller_scores title description sn hint oph aph pm).1 = 0 ∧
      (seller_scores title description sn hint oph aph pm).2 = 0 ↔
      (seller_scores title description sn hint oph aph pm).1 +
        (seller_scores title description sn hint oph aph pm).2 = 0) ∧
    ((seller_scores title description sn hint oph aph pm).1 +
        (seller_scores title description sn hint oph aph pm).2 = 0 →
      classify_seller title description sn hint oph aph pm = ("unknown", 0)) ∧
    ((seller_scores title description sn hint oph aph pm).1 +
        (seller_scores title description sn hint oph aph pm).2 ≠ 0 →
      (seller_scores title description sn hint oph aph pm).2 <
          (seller_scores title description sn hint oph aph pm).1 →
      classify_seller title description sn hint oph aph pm =
        ("owner", min ((seller_scores title description sn hint oph aph pm).1 /
          max ((seller_scores title description sn hint oph aph pm).1 +
            (seller_scores title description sn hint oph aph pm).2) 1) 1)) ∧
    ((seller_scores title description sn hint oph aph pm).1 +
        (seller_scores title description sn hint oph aph pm).2 ≠ 0 →
      ¬ (seller_scores title description sn hint oph aph pm).2 <
          (seller_scores title description sn hint oph aph pm).1 →
      classify_seller title description sn hint oph aph pm =
        ("agency", min ((seller_scores title description sn hint oph aph pm).2 /
          max ((seller_scores title description sn hint oph aph pm).1 +
            (seller_scores title description sn hint oph aph pm).2) 1) 1)) ∧
    0 ≤ (classify_seller title description sn hint oph aph pm).2 ∧
    (classify_seller title description sn hint oph aph pm).2 ≤ 1 := by
  obtain ⟨ho, ha⟩ := seller_scores_nonneg title description sn hint oph aph pm
  set o := (seller_scores title description sn hint oph aph pm).1 with hodef
  set a := (seller_scores title description sn hint oph aph pm).2 with hadef
  have hden : (0 : ℚ) < max (o + a) 1 := lt_of_lt_of_le one_pos (le_max_right _ _)
  have hconf : ∀ x : ℚ, 0 ≤ x → 0 ≤ min (x / max (o + a) 1) 1 ∧
      min (x / max (o + a) 1) 1 ≤ 1 := by
    intro x hx
    exact ⟨le_min (div_nonneg hx hden.le) zero_le_one, min_le_right _ _⟩
  have hcs : classify_seller title description sn hint oph aph pm =
      classify_decision o a := rfl
  refine ⟨?_, ?_, ?_, ?_, ?_⟩
  · constructor
    · rintro ⟨h1, h2⟩; rw [h1, h2]; norm_num
    · intro h; exact ⟨le_antisymm (by linarith) ho, le_antisymm (by linarith) ha⟩
  · intro h
    rw [hcs]
    simp only [classify_decision]
    rw [if_pos h]
  · intro h hlt
    rw [hcs]
    simp only [classify_decision]
    rw [if_neg h, if_pos hlt]
  · intro h hnlt
    rw [hcs]
    simp only [classify_decision]
    rw [if_neg h, if_neg hnlt]
  · rw [hcs]
    simp only [classify_decision]
    split_ifs with h1 h2
    · norm_num
    · exact hconf o ho
    · exact hconf a ha

/-- C9: a nonzero tie between the owner score and the agency score is always
classified as `agency`: the `owner` branch requires a strictly higher owner
score, and a nonzero tie fails the zero-total test. -/
theorem C9_tie_goes_to_agency (title description : String)
    (sn hint : Option String) (oph aph pm : Nat)
    (heq : (seller_scores title description sn hint oph aph pm).1 =
      (seller_scores title description sn hint oph aph pm).2)
    (hne : (seller_scores title description sn hint oph aph pm).1 ≠ 0) :
    (classify_seller title description sn hint oph aph pm).1 = "agency" := by
  set o := (seller_scores title description sn hint oph aph pm).1 with hodef
  set a := (seller_scores title description sn hint oph aph pm).2 with hadef
  have hcs : classify_seller title description sn hint oph aph pm =
      classify_decision o a := rfl
  have htot : o + a ≠ 0 := by
    rw [← heq]
    intro h
    exact hne (by linarith)
  rw [hcs]
  simp only [classify_decision]
  rw [if_neg htot, if_neg (by rw [heq]; exact lt_irrefl a)]

/-- C9, witness: "власник агент" scores 0.3 for each side — a nonzero tie —
and is classified as `agency`. -/
theorem C9_tie_witness :
    (classify_seller "власник агент" "" none none 0 0 0).1 = "agency" := by
  have hk1 : keyword_hits (combined_text "власник агент" "" none) owner_keywords
      = 1 := by decide
  have hk2 : keyword_hits (combined_text "власник агент" "" none) agency_keywords
      = 1 := by decide
  have hs : seller_scores "власник агент" "" none none 0 0 0 = (3/10, 3/10) := by
    rw [seller_scores_eval, hk1, hk2]
    norm_num
  exact C9_tie_goes_to_agency "власник агент" "" none none 0 0 0
    (by rw [hs]) (by rw [hs]; norm_num)

/-! ## C5: district resolution has no default tier -/

/-- C5, counterexample: on input texts matching no street and no heuristic
pattern, `_determine_district` returns an unpopulated district with source
"unknown" — not the configured default district with source "default" that
the claim requires. -/
theorem C5_no_default_counterexample :
    determine_district STREET_DISTRICT_MAPPING "" "" =
      ⟨none, none, "unknown"⟩ ∧
    (determine_district STREET_DISTRICT_MAPPING "" "").district = none ∧
    (determine_district STREET_DISTRICT_MAPPING "" "").source ≠ "default" ∧
    (determine_district STREET_DISTRICT_MAPPING "" "").district ≠
      some DEFAULT_DISTRICT := by
  refine ⟨by decide, by decide, by decide, by decide⟩

/-- C5, amended: district resolution is three-valued, not
guaranteed-populated: a street match yields a populated district with source
"street_mapping", otherwise a heuristic pattern match yields one with source
"text_heuristic", and otherwise the result is district None, street None,
source "unknown"; no default-district tier exists and source "default" is
never produced. -/
theorem C5_three_valued_resolution (street_mapping : List (String × String))
    (location_text description : String) :
    (determine_district street_mapping location_text description).source ≠
      "default" ∧
    ((determine_district street_mapping location_text description).district =
        none →
      determine_district street_mapping location_text description =
        ⟨none, none, "unknown"⟩) ∧
    ((∃ d s, determine_district street_mapping location_text description =
        ⟨some d, some s, "street_mapping"⟩) ∨
     (∃ d, determine_district street_mapping location_text description =
        ⟨some d, none, "text_heuristic"⟩) ∨
     determine_district street_mapping location_text description =
        ⟨none, none, "unknown"⟩) := by
  cases h1 : street_mapping.find?
      (fun sd => strContains (pyLowerStr (location_text ++ " " ++ description))
        (pyLowerStr sd.1)) with
  | some sd =>
    have hd : determine_district street_mapping location_text description =
        ⟨some sd.2, some sd.1, "street_mapping"⟩ := by
      simp only [determine_district]
      rw [h1]
    rw [hd]
    exact ⟨(by decide : ("street_mapping" : String) ≠ "default"), by simp,
      Or.inl ⟨sd.2, sd.1, rfl⟩⟩
  | none =>
    cases h2 : district_patterns.find?
        (fun pd => pd.1.any
          (dpatMatches (pyLowerStr (location_text ++ " " ++ description)))) with
    | some pd =>
      have hd : determine_district street_mapping location_text description =
          ⟨some pd.2, none, "text_heuristic"⟩ := by
        simp only [determine_district]
        rw [h1, h2]
      rw [hd]
      exact ⟨(by decide : ("text_heuristic" : String) ≠ "default"), by simp,
        Or.inr (Or.inl ⟨pd.2, rfl⟩)⟩
    | none =>
      have hd : determine_district street_mapping location_text description =
          ⟨none, none, "unknown"⟩ := by
        simp only [determine_district]
        rw [h1, h2]
      rw [hd]
      exact ⟨(by decide : ("unknown" : String) ≠ "default"), fun _ => rfl,
        Or.inr (Or.inr rfl)⟩

/-! ## C6: an unparseable price drops the listing -/

/-- Any `extract_price` result with a non-empty currency carries a price
value: the empty-text and no-token branches are the only ones returning an
empty currency, and every other branch returns `some` value. -/
theorem extract_price_some_of_currency (s : String)
    (h : (extract_price s).2 ≠ "") : (extract_price s).1.isSome := by
  by_cases hs : s = ""
  · simp [extract_price, hs] at h
  · simp only [extract_price, if_neg hs] at h ⊢
    cases htok : findNumericToken (priceCleanChars s) with
    | none => simp [htok] at h
    | some t =>
      obtain ⟨ip, fp⟩ := t
      simp only [htok]
      split_ifs <;> simp

/-- C6, counterexample: a fragment with all four elements, an extractable
external id and a kept title, whose price text parses to `(None, "")`, is
dropped entirely by `_parse_single_listing` (the empty currency fails the
USD check) — the claim instead requires a kept candidate with a null
price. -/
theorem C6_unparseable_price_drops_listing :
    parse_single_listing fragNoPrice = none ∧
    extract_olx_id (build_listing_url "/d/uk/obyavlenie/123456-kvartira.html") =
      some "123456" ∧
    clean_text "2-кімнатна квартира" = "2-кімнатна квартира" ∧
    extract_price (clean_text "ціна договірна") = (none, "") := by
  refine ⟨by decide, by decide, by decide, by decide⟩

/-- C6, amended: for a fragment with all four elements present, whenever
`extract_price` on the cleaned price text yields any currency other than
"USD" — which covers every unparseable price, since those yield
`(None, "")` — the Controller drops the listing entirely rather than keeping
it with a null price; and every candidate the Controller does keep carries
currency "USD" and a non-null price equal to `extract_price`'s value.
`extract_price` itself never discards anything: the exclusion happens in
`_parse_single_listing`. -/
theorem C6_currency_gate (f : Fragment) (tRaw pRaw lRaw href : String)
    (ht : f.title_elem = some tRaw) (hp : f.price_elem = some pRaw)
    (hl : f.location_elem = some lRaw) (hh : f.link_elem = some href) :
    ((extract_price (clean_text pRaw)).2 ≠ "USD" →
      parse_single_listing f = none) ∧
    (∀ c, parse_single_listing f = some c →
      c.currency = "USD" ∧
      c.price_usd = (extract_price (clean_text pRaw)).1 ∧
      c.price_usd.isSome) := by
  rcases f with ⟨te, pe, le, he⟩
  dsimp only at ht hp hl hh
  subst ht; subst hp; subst hl; subst hh
  simp only [parse_single_listing]
  cases hid : extract_olx_id (build_listing_url href) with
  | none =>
    refine ⟨fun _ => rfl, fun c hc => ?_⟩
    simp at hc
  | some oid =>
    dsimp only
    by_cases hcur : (extract_price (clean_text pRaw)).2 ≠ "USD"
    · rw [if_pos hcur]
      exact ⟨fun _ => rfl, fun c hc => by cases hc⟩
    · push_neg at hcur
      have hnn : ¬ ((extract_price (clean_text pRaw)).2 ≠ "USD") := by
        rw [hcur]; simp
      rw [if_neg hnn]
      cases hloc : determine_location (clean_text lRaw) with
      | error e =>
        refine ⟨fun hcontra => absurd hcur hcontra, fun c hc => ?_⟩
        simp at hc
      | ok ds =>
        refine ⟨fun hcontra => absurd hcur hcontra, fun c hc => ?_⟩
        dsimp only at hc
        injection hc with hc2
        subst hc2
        exact ⟨hcur, rfl, extract_price_some_of_currency (clean_text pRaw)
          (by rw [hcur]; decide)⟩

/-- C6, witness: the USD-priced fragment is kept with a non-null price and
currency "USD"; the hypotheses hold at this concrete card. -/
theorem C6_currency_gate_witness :
    ((extract_price (clean_text "50 000")).2 ≠ "USD" →
      parse_single_listing fragBarePrice = none) ∧
    (∀ c, parse_single_listing fragBarePrice = some c →
      c.currency = "USD" ∧
      c.price_usd = (extract_price (clean_text "50 000")).1 ∧
      c.price_usd.isSome) :=
  C6_currency_gate fragBarePrice "2-кімнатна квартира" "50 000"
    "вул. Галицька" "/d/uk/obyavlenie/123456-kvartira.html" rfl rfl rfl rfl

/-! ## C10: missing currency marker defaults to USD and passes the filter -/

/-- The numeric-token scan succeeds whenever the text holds a digit. -/
theorem findNumericToken_isSome {l : List Char}
    (h : ∃ c ∈ l, isDigitCh c = true) : (findNumericToken l).isSome := by
  induction l with
  | nil =>
    rcases h with ⟨c, hc, _⟩
    cases hc
  | cons a t ih =>
    cases ha : isDigitCh a with
    | true =>
      simp only [findNumericToken, ha, if_true]
      split
      · split_ifs <;> simp
      · simp
    | false =>
      rcases h with ⟨c, hc, hcd⟩
      rcases List.mem_cons.1 hc with rfl | hct
      · rw [ha] at hcd; cases hcd
      · simpa [findNumericToken, ha] using ih ⟨c, hct, hcd⟩

/-- Digits survive the comma-and-space removal. -/
theorem digit_in_priceClean {s : String}
    (h : ∃ c ∈ s.toList, isDigitCh c = true) :
    ∃ c ∈ priceCleanChars s, isDigitCh c = true := by
  rcases h with ⟨c, hc, hcd⟩
  have h1 : ¬ (c = ',') := by intro e; rw [e] at hcd; cases hcd
  have h2 : ¬ (c = ' ') := by intro e; rw [e] at hcd; cases hcd
  refine ⟨c, ?_, hcd⟩
  simp only [priceCleanChars, List.mem_filter]
  exact ⟨hc, by simp [h1, h2]⟩

/-- C10: a price text that holds a digit but none of the recognized currency
markers (`USD`/`$`/`DOLLAR`, `EUR`/`€`/`EURO`, `UAH`/`₴`/`ГРН`, sought in the
uppercased cleaned text) yields `(some value, "USD")` from `extract_price`,
so such a listing passes the Controller's USD-only check and — with the id
extracted and the location resolved — is retained as a candidate rather than
excluded. -/
theorem C10_no_marker_defaults_to_usd (f : Fragment)
    (tRaw pRaw lRaw href oid : String) (ds : String × Option String)
    (ht : f.title_elem = some tRaw) (hp : f.price_elem = some pRaw)
    (hl : f.location_elem = some lRaw) (hh : f.link_elem = some href)
    (hdigit : ∃ c ∈ (clean_text pRaw).toList, isDigitCh c = true)
    (husd : containsAnyL (priceUpperChars (clean_text pRaw))
      ["USD", "$", "DOLLAR"] = false)
    (heur : containsAnyL (priceUpperChars (clean_text pRaw))
      ["EUR", "€", "EURO"] = false)
    (huah : containsAnyL (priceUpperChars (clean_text pRaw))
      ["UAH", "₴", "ГРН"] = false)
    (hid : extract_olx_id (build_listing_url href) = some oid)
    (hloc : determine_location (clean_text lRaw) = .ok ds) :
    (extract_price (clean_text pRaw)).2 = "USD" ∧
    (extract_price (clean_text pRaw)).1.isSome ∧
    parse_single_listing f = some
      ⟨oid, clean_text tRaw, (extract_price (clean_text pRaw)).1, "USD",
        ds.1, ds.2, clean_text lRaw⟩ := by
  have hne : ¬ (clean_text pRaw = "") := by
    rcases hdigit with ⟨c, hc, _⟩
    intro e
    rw [e] at hc
    cases hc
  obtain ⟨tok, htok⟩ := Option.isSome_iff_exists.1
    (findNumericToken_isSome (digit_in_priceClean hdigit))
  obtain ⟨ip, fp⟩ := tok
  have hep : extract_price (clean_text pRaw) =
      (some (tokenValue ip fp), "USD") := by
    simp only [extract_price, if_neg hne, htok]
    rw [if_neg (by rw [husd]; simp), if_neg (by rw [heur]; simp),
      if_neg (by rw [huah]; simp)]
  refine ⟨by rw [hep], by rw [hep]; rfl, ?_⟩
  rcases f with ⟨te, pe, le, he⟩
  dsimp only at ht hp hl hh
  subst ht; subst hp; subst hl; subst hh
  simp only [parse_single_listing]
  rw [hid]
  dsimp only
  rw [if_neg (by rw [hep]; simp)]
  rw [hloc]
  dsimp only
  rw [hep]

/-- C10, witness: the card priced "50 000" (digits, no marker) is parsed to
a retained USD candidate at price 50000. -/
theorem C10_no_marker_witness :
    (extract_price (clean_text "50 000")).2 = "USD" ∧
    (extract_price (clean_text "50 000")).1.isSome ∧
    parse_single_listing fragBarePrice = some
      ⟨"123456", clean_text "2-кімнатна квартира",
        (extract_price (clean_text "50 000")).1, "USD",
        "Центр", some "Галицька", clean_text "вул. Галицька"⟩ :=
  C10_no_marker_defaults_to_usd fragBarePrice "2-кімнатна квартира" "50 000"
    "вул. Галицька" "/d/uk/obyavlenie/123456-kvartira.html" "123456"
    ("Центр", some "Галицька") rfl rfl rfl rfl (by decide) (by decide)
    (by decide) (by decide) (by decide) rfl
